import Mathlib

/-!
Shallow embedding of `weblate/trans/views/edit.py` and
`weblate/trans/views/changes.py` (Weblate translation views), together with
theorems settling the specification claims about them.

External collaborators (ORM queries, `save_backend`, `Suggestion.objects.add`,
form validation, the permission predicates) are modelled as explicit
parameters: the embedded functions branch on their results exactly where the
Python code does.
-/

namespace Weblate

/-- A user-visible message emitted via `weblate.utils.messages`. -/
inductive Msg
  | error (s : String)
  | warning (s : String)
  | info (s : String)
  | success (s : String)
deriving DecidableEq, Repr

/-! ### Session-backed search cache (`cleanup_session` / `search`) -/

/-- The dictionary stored under a `search_<uuid>` session key
(`search` in `edit.py` builds it with keys
`params, query, name, ids, search_id, ttl, offset`). -/
structure SearchEntry where
  hasParams : Bool
  query : Option String
  name : String
  ids : List Nat
  searchId : String
  ttl : Nat
  offset : Int
deriving DecidableEq, Repr

/-- A value stored in the session: either a search dictionary or anything
else (`cleanup_session` checks `isinstance(value, dict)`). -/
inductive SessionValue
  | dict (e : SearchEntry)
  | other
deriving DecidableEq, Repr

/-- The session storage: a keyed map, modelled as an association list with
distinct keys. -/
abbrev Session := List (String × SessionValue)

/-- Session lookup (`key in session` / `session[key]`). -/
def sessionGet (s : Session) (k : String) : Option SessionValue :=
  (s.find? (fun kv => kv.1 == k)).map (fun kv => kv.2)

/-- Session key deletion (`del session[key]`). -/
def sessionDel (s : Session) (k : String) : Session :=
  s.filter (fun kv => kv.1 != k)

/-- Python `key.startswith(pre)`, over the character data of the strings. -/
def strStartsWith (s pre : String) : Bool :=
  pre.data.isPrefixOf s.data

/-- Whether `cleanup_session` deletes this value at time `now`:
`not isinstance(value, dict) or value['ttl'] < now`. -/
def staleValue (now : Nat) : SessionValue → Bool
  | .dict e => e.ttl < now
  | .other => true

/-- `cleanup_session(session)`: delete every `search_`-prefixed key whose
value is not a dict or whose `ttl` is below the current time. -/
def cleanup_session (now : Nat) (s : Session) : Session :=
  s.filter (fun kv => !(strStartsWith kv.1 "search_" && staleValue now kv.2))

/-- Result of `search(translation, request)`: either a redirect response or
the (possibly fresh) search entry together with the resulting session. -/
inductive SearchOutcome
  | redirectInvalid       -- `messages.error('Invalid search string!')` + redirect
  | redirectNoMatch       -- `messages.warning('No string matched …')` + redirect
  | entry (e : SearchEntry) (session : Session)
  | nonDictEntry          -- a `search_` key held by a non-dict value (never
                          -- written by this module)
deriving DecidableEq, Repr

/-- The `'sid' in request.GET` branch of `search`: look the id up in the
session; a missing key is an invalid-search redirect, a present key is
returned as-is.  No clock is consulted and no cleanup is performed. -/
def searchResolveSid (session : Session) (sid : String) : SearchOutcome :=
  match sessionGet session ("search_" ++ sid) with
  | none => .redirectInvalid
  | some (.dict e) => .entry e session
  | some .other => .nonDictEntry

/-- The new-search branch of `search` (no `sid` in the request).  The ORM
query result is the identifier list `unitIds`; `checksum = none` models a
request without a `checksum` parameter, `some none` a checksum that matched
no unit (the `except` branch), and `some (some i)` a checksum resolved to
index `i` of `unitIds`.  On success the session is swept by
`cleanup_session` and the fresh entry (TTL = now + 86400) is stored. -/
def searchNew (session : Session) (now : Nat) (unitIds : List Nat)
    (checksum : Option (Option Nat)) (newSid : String) (name : String)
    (query : Option String) : SearchOutcome :=
  if unitIds.length == 0 then
    .redirectNoMatch
  else
    match checksum with
    | some none => .redirectNoMatch
    | some (some i) =>
        let e : SearchEntry :=
          { hasParams := true, query := query, name := name, ids := unitIds,
            searchId := newSid, ttl := now + 86400, offset := (i : Int) }
        .entry e (cleanup_session now session ++ [("search_" ++ newSid, .dict e)])
    | none =>
        let e : SearchEntry :=
          { hasParams := true, query := query, name := name, ids := unitIds,
            searchId := newSid, ttl := now + 86400, offset := 0 }
        .entry e (cleanup_session now session ++ [("search_" ++ newSid, .dict e)])

/-! ### Units and the translate/merge/revert handlers -/

/-- The slice of a `Unit` record these views read and write. -/
structure TUnit where
  idHash : Nat
  target : String
  fuzzy : Bool
deriving DecidableEq, Repr

/-- Where a handler's `HttpResponseRedirect` points. -/
inductive Redirect
  | next        -- `next_unit_url` (offset + 1)
  | this        -- `this_unit_url` (current offset)
deriving DecidableEq, Repr

/-- A handler's return value: a redirect, or `None` (fall through to
re-rendering the current page in `translate`). -/
inductive TResponse
  | redirect (r : Redirect)
  | noResponse
deriving DecidableEq, Repr

/-- Python set semantics on string lists: `a ⊆ b`. -/
def listSubset (a b : List String) : Bool :=
  a.all (fun x => b.contains x)

/-- Python `set(new) > set(old)`: strict superset. -/
def strictSuperset (new old : List String) : Bool :=
  listSubset old new && !(listSubset new old)

/-- The external collaborators of `perform_translation`: the storage backend
(`unit.translate`, returning the stored unit and whether a save happened),
the quality-check engine (`unit.active_checks()`), and the autofix pass
(`fix_target`, returning the fixed target and the fixups applied). -/
structure TransBackend where
  translate : TUnit → List String → Bool → TUnit × Bool
  activeChecks : TUnit → List String
  fixTarget : List String → TUnit → List String × List String

/-- `perform_suggestion(unit, form, request)` reduced to its decision logic;
the `Suggestion.objects.add` call is the external `addOk`, and
`hasRecent` is `recent_changes.exists()`.  Returns
(`go_next`, messages, whether a suggestion record was created). -/
def perform_suggestion (canSuggest : Bool) (addOk : Bool) (hasRecent : Bool)
    (target : List String) : Bool × List Msg × Bool :=
  if target.headD "" == "" then
    (false, [.error "Your suggestion is empty!"], false)
  else if !canSuggest then
    (false, [.error "You don't have privileges to add suggestions!"], false)
  else
    let msgs : List Msg :=
      if !hasRecent then [.info "There is currently no active translator"] else []
    if addOk then
      (true, msgs, true)
    else
      (false, msgs ++ [.error "Your suggestion already exists!"], false)

/-- `perform_translation(unit, form, request)`: remember old checks, run
autofixes (unless the translation is a template), save through the backend,
then compare the new check set; a save that strictly enlarges the failing
check set reports an error and returns `False` (stay on the same entry).
Returns (unit after the `unit.translate` call, `go_next`, messages). -/
def perform_translation (b : TransBackend) (isTemplate : Bool) (unit : TUnit)
    (target : List String) (fuzzy : Bool) : TUnit × Bool × List Msg :=
  let oldchecks := b.activeChecks unit
  let tf := if !isTemplate then b.fixTarget target unit else (target, [])
  let newTarget := tf.1
  let fixups := tf.2
  let tr := b.translate unit newTarget fuzzy
  let unit' := tr.1
  let saved := tr.2
  let msgs : List Msg :=
    if fixups.length > 0 then [.info "Following fixups were applied"] else []
  let newchecks := b.activeChecks unit'
  if saved && strictSuperset newchecks oldchecks then
    (unit', false, msgs ++ [.error "Some checks have failed on your translation"])
  else
    (unit', true, msgs)

/-- The request data `handle_translate` inspects. -/
structure TranslateReq where
  antispamValid : Bool       -- `AntispamForm(request.POST).is_valid()`
  formValid : Bool           -- `TranslationForm(...).is_valid()`
  suggest : Bool             -- `'suggest' in request.POST`
  commitMessage : Option String
  target : List String
  fuzzy : Bool
deriving Repr

/-- What `handle_translate` produced: the unit afterwards, the translation's
commit message afterwards, messages, whether a suggestion was created, and
the response. -/
structure HTResult where
  unit : TUnit
  commitMsg : String
  msgs : List Msg
  suggestionAdded : Bool
  response : TResponse
deriving DecidableEq, Repr

/-- `handle_translate(translation, request, user_locked, this_unit_url,
next_unit_url)`.  `transCommitMsg` is `translation.commit_message`;
`canTranslate`/`canSuggest` are the permission predicates; suggestion
externals as in `perform_suggestion`. -/
def handle_translate (req : TranslateReq) (unit : TUnit) (transCommitMsg : String)
    (canTranslate canSuggest : Bool) (userLocked : Bool)
    (b : TransBackend) (isTemplate : Bool)
    (sugAddOk sugHasRecent : Bool) : HTResult :=
  if !req.antispamValid then
    -- Silently redirect to next entry
    ⟨unit, transCommitMsg, [], false, .redirect .next⟩
  else if !req.formValid then
    ⟨unit, transCommitMsg, [], false, .noResponse⟩
  else if req.suggest then
    let r := perform_suggestion canSuggest sugAddOk sugHasRecent req.target
    ⟨unit, transCommitMsg, r.2.1, r.2.2,
      .redirect (if r.1 then .next else .this)⟩
  else if !canTranslate then
    -- go_next keeps its initial value True: redirect to the *next* entry
    ⟨unit, transCommitMsg,
      [.error "You don't have privileges to save translations!"], false,
      .redirect .next⟩
  else if !userLocked then
    let cm := match req.commitMessage with
      | some m => if m != transCommitMsg then m else transCommitMsg
      | none => transCommitMsg
    let r := perform_translation b isTemplate unit req.target req.fuzzy
    ⟨r.1, cm, r.2.2, false, .redirect (if r.2.1 then .next else .this)⟩
  else
    ⟨unit, transCommitMsg, [], false, .redirect .next⟩

/-- What `handle_merge` produced. -/
structure MergeResult where
  unit : TUnit
  translatedStat : Nat      -- `request.user.profile.translated`
  msgs : List Msg
  response : TResponse
deriving DecidableEq, Repr

/-- `handle_merge(translation, request, next_unit_url)`: permission gate,
form validation, identity-hash gate, then copy target+fuzzy from the merged
unit, save through `saveBackend` and count the save in the user's
translated statistic. -/
def handle_merge (canTranslate formValid : Bool) (unit merged : TUnit)
    (translatedStat : Nat) (saveBackend : TUnit → Bool) : MergeResult :=
  if !canTranslate then
    ⟨unit, translatedStat,
      [.error "You don't have privileges to save translations!"], .noResponse⟩
  else if !formValid then
    ⟨unit, translatedStat, [.error "Invalid merge request!"], .noResponse⟩
  else if unit.idHash != merged.idHash then
    ⟨unit, translatedStat, [.error "Can not merge different messages!"],
      .noResponse⟩
  else
    let unit' : TUnit := { unit with target := merged.target, fuzzy := merged.fuzzy }
    let saved := saveBackend unit'
    ⟨unit', if saved then translatedStat + 1 else translatedStat, [],
      .redirect .next⟩

/-- The slice of a `Change` record `handle_revert` reads: the identity hash
of the change's unit and the recorded target text. -/
structure ChangeRec where
  unitIdHash : Nat
  target : String
deriving DecidableEq, Repr

/-- What `handle_revert` produced; `savedRevert` records whether
`unit.save_backend(request, change_action=Change.ACTION_REVERT)` ran. -/
structure RevertResult where
  unit : TUnit
  msgs : List Msg
  savedRevert : Bool
  response : TResponse
deriving DecidableEq, Repr

/-- `handle_revert(translation, request, next_unit_url)`: permission gate,
form validation, identity-hash gate, non-empty historical target gate, then
restore the target from the change. -/
def handle_revert (canTranslate formValid : Bool) (unit : TUnit)
    (change : ChangeRec) : RevertResult :=
  if !canTranslate then
    ⟨unit, [.error "You don't have privileges to save translations!"], false,
      .noResponse⟩
  else if !formValid then
    ⟨unit, [], false, .noResponse⟩
  else if unit.idHash != change.unitIdHash then
    ⟨unit, [.error "Can not revert to different unit!"], false, .noResponse⟩
  else if change.target == "" then
    ⟨unit, [.error "Can not revert to empty translation!"], false, .noResponse⟩
  else
    ⟨{ unit with target := change.target }, [], true, .redirect .next⟩

/-! ### Suggestion handling (`check_suggest_permissions` / `handle_suggestions`) -/

/-- Strip surrounding whitespace from a character list. -/
def trimChars (cs : List Char) : List Char :=
  ((cs.dropWhile Char.isWhitespace).reverse.dropWhile Char.isWhitespace).reverse

/-- Decimal value of a digit list. -/
def digitsToNat (cs : List Char) : Nat :=
  cs.foldl (fun n c => n * 10 + (c.toNat - 48)) 0

/-- Python `int` on an already-trimmed character list: optional sign
followed by at least one decimal digit. -/
def pyIntCore : List Char → Option Int
  | [] => none
  | c :: rest =>
    if c == '-' then
      if !rest.isEmpty && rest.all Char.isDigit then
        some (-(digitsToNat rest : Int))
      else none
    else if c == '+' then
      if !rest.isEmpty && rest.all Char.isDigit then
        some ((digitsToNat rest : Int))
      else none
    else
      if (c :: rest).all Char.isDigit then
        some ((digitsToNat (c :: rest) : Int))
      else none

/-- Python `int(s)` on a string: optional surrounding whitespace, optional
sign, decimal digits; anything else raises `ValueError`, modelled as
`none`. -/
def pyInt (s : String) : Option Int :=
  pyIntCore (trimChars s.data)

/-- The suggestion-related POST parameters; `some v` means the key is
present with value `v`. -/
structure SugPost where
  accept : Option String
  acceptEdit : Option String     -- `accept_edit`
  delete : Option String
  upvote : Option String
  downvote : Option String
deriving DecidableEq, Repr

/-- The parameter-scanning loop at the top of `handle_suggestions`: the
first present key in the order `accept, accept_edit, delete, upvote,
downvote` fixes `mode` and `sugid` (`mode = None`, `sugid = ''` when none
is present). -/
def sugParse (p : SugPost) : Option String × String :=
  match p.accept with
  | some v => (some "accept", v)
  | none =>
  match p.acceptEdit with
  | some v => (some "accept_edit", v)
  | none =>
  match p.delete with
  | some v => (some "delete", v)
  | none =>
  match p.upvote with
  | some v => (some "upvote", v)
  | none =>
  match p.downvote with
  | some v => (some "downvote", v)
  | none => (none, "")

/-- A stored `Suggestion` row as the lookup filters see it. -/
structure SuggestionRec where
  pk : Int
  project : String
  language : String
deriving DecidableEq, Repr

/-- `Suggestion.objects.get(pk=int(sugid), project=…, language=…)`:
`none` models both `ValueError` from `int` and `Suggestion.DoesNotExist`. -/
def fetchSuggestion (store : List SuggestionRec) (sugid : String)
    (project language : String) : Option SuggestionRec :=
  (pyInt sugid).bind (fun n =>
    store.find? (fun s => s.pk == n && s.project == project && s.language == language))

/-- `check_suggest_permissions(request, mode, translation, suggestion)`:
per-mode capability predicate; returns the verdict and the error message
emitted on failure. -/
def check_suggest_permissions (mode : Option String)
    (canAccept canDelete canVote : Bool) : Bool × List Msg :=
  if mode == some "accept" || mode == some "accept_edit" then
    if !canAccept then
      (false, [.error "You do not have privilege to accept suggestions!"])
    else (true, [])
  else if mode == some "delete" then
    if !canDelete then
      (false, [.error "You do not have privilege to delete suggestions!"])
    else (true, [])
  else if mode == some "upvote" || mode == some "downvote" then
    if !canVote then
      (false, [.error "You do not have privilege to vote for suggestions!"])
    else (true, [])
  else (true, [])

/-- The externally visible operation `handle_suggestions` performed on the
suggestion store. -/
inductive SugEffect
  | accepted            -- `suggestion.accept(translation, request)`
  | deleted             -- `suggestion.delete_log(translation, request)`
  | voted (up : Bool)   -- `suggestion.add_vote(translation, request, up)`
  | noEffect
deriving DecidableEq, Repr

/-- What `handle_suggestions` produced: the effect, messages, and the
redirect target. -/
structure SugResult where
  effect : SugEffect
  msgs : List Msg
  redirect : Redirect
deriving DecidableEq, Repr

/-- `handle_suggestions(translation, request, this_unit_url,
next_unit_url)`: parse the mode, fetch the suggestion scoped to the
translation's project and language, check per-mode permission, perform the
operation; only the plain `accept` key switches the redirect to the next
unit. -/
def handle_suggestions (p : SugPost) (store : List SuggestionRec)
    (project language : String) (canAccept canDelete canVote : Bool) : SugResult :=
  let parsed := sugParse p
  let mode := parsed.1
  let sugid := parsed.2
  match fetchSuggestion store sugid project language with
  | none => ⟨.noEffect, [.error "Invalid suggestion!"], .this⟩
  | some _ =>
    let perm := check_suggest_permissions mode canAccept canDelete canVote
    if !perm.1 then
      ⟨.noEffect, perm.2, .this⟩
    else if p.accept.isSome || p.acceptEdit.isSome then
      ⟨.accepted, [], if p.accept.isSome then .next else .this⟩
    else if p.delete.isSome then
      ⟨.deleted, [], .this⟩
    else if p.upvote.isSome then
      ⟨.voted true, [], .this⟩
    else if p.downvote.isSome then
      ⟨.voted false, [], .this⟩
    else
      ⟨.noEffect, [], .this⟩

/-! ### Offset parsing and boundary check in `translate` / `get_zen_unitdata` -/

/-- Offset computation in `translate`:
`int(request.GET.get('offset', search_result.get('offset', 0)))` guarded by
`except ValueError: offset = 0`.  When the GET parameter is absent the
stored offset (already an integer) is used; a present but unparseable
parameter falls back to 0.  No message is emitted (second component). -/
def translateOffset (param : Option String) (stored : Int) : Int × List Msg :=
  match param with
  | none => (stored, [])
  | some s => ((pyInt s).getD 0, [])

/-- Offset computation in `get_zen_unitdata`:
`int(request.GET.get('offset', 0))` guarded by `except ValueError:
offset = 0`. -/
def zenOffset (param : Option String) : Int × List Msg :=
  match param with
  | none => (0, [])
  | some s => ((pyInt s).getD 0, [])

/-- Outcome of the boundary check and unit fetch in `translate`
(lines around `if not 0 <= offset < num_results` and
`translation.unit_set.get(pk=search_result['ids'][offset])`). -/
inductive OffsetOutcome
  | unitAt (pk : Nat) (session : Session)          -- proceed with this unit
  | reachedEnd (msgs : List Msg) (session : Session) -- info + delete + redirect
  | invalidSearch (msgs : List Msg) (session : Session) -- `Unit.DoesNotExist`
deriving DecidableEq, Repr

/-- The boundary check plus unit fetch of `translate`: an out-of-range
offset emits the informational end-of-translating message, deletes the
search entry from the session and redirects; an in-range offset resolves
`ids[offset]`, which the ORM either finds (`hasUnit`) or not (a sid reused
for another translation). -/
def resolveOffsetUnit (session : Session) (e : SearchEntry) (offset : Int)
    (hasUnit : Nat → Bool) : OffsetOutcome :=
  if 0 ≤ offset ∧ offset < (e.ids.length : Int) then
    let pk := e.ids.getD offset.toNat 0
    if hasUnit pk then
      .unitAt pk session
    else
      .invalidSearch [.error "Invalid search string!"] session
  else
    .reachedEnd [.info "You have reached end of translating."]
      (sessionDel session ("search_" ++ e.searchId))

/-! ### CSV export of changes (`ChangesCSVView.get`) -/

/-- One CSV data row written for a change. -/
structure CsvRow where
  timestamp : String
  action : String
  user : String
  url : String
deriving DecidableEq, Repr

/-- The CSV response: the locale activated before formatting, the header
row, and the data rows. -/
structure CsvResponse where
  locale : String
  header : List String
  rows : List CsvRow
deriving DecidableEq, Repr

/-- `ChangesCSVView.get`: evaluate the queryset (the `changes` list),
refuse with `PermissionDenied` when the viewer lacks the download
capability (no CSV body is produced), otherwise `activate('en')` and write
the header plus at most the first 2000 changes (`object_list[:2000]`). -/
def changes_csv_get (canDownload : Bool) (changes : List CsvRow) :
    Except String CsvResponse :=
  if !canDownload then
    .error "PermissionDenied"
  else
    .ok { locale := "en",
          header := ["timestamp", "action", "user", "url"],
          rows := changes.take 2000 }

/-! ### Bulk search-and-replace (`search_replace`) -/

/-- The slice of a unit row `search_replace` touches. -/
structure RUnit where
  pk : Nat
  target : String
deriving DecidableEq, Repr

/-- A change-log row appended by `save_backend`; only the action kind and
the unit it belongs to matter here. -/
structure ChangeRow where
  unitPk : Nat
  action : String
deriving DecidableEq, Repr

/-- Substring containment on character lists: the pattern occurs at some
position (the empty pattern is contained in everything). -/
def containsList (pat : List Char) : List Char → Bool
  | [] => pat.isEmpty
  | c :: rest => pat.isPrefixOf (c :: rest) || containsList pat rest

/-- Python `pattern in s` on strings (the ORM `target__contains` filter). -/
def pyContains (s pat : String) : Bool :=
  containsList pat.data s.data

/-- Left-to-right non-overlapping replacement of `pat` by `rep`, driven by
a fuel argument (the length of the scanned list) so that the recursion is
structural. -/
def replaceAux (pat rep : List Char) : Nat → List Char → List Char
  | _, [] => []
  | 0, s => s
  | n + 1, c :: rest =>
    if !pat.isEmpty && pat.isPrefixOf (c :: rest) then
      rep ++ replaceAux pat rep n (rest.drop (pat.length - 1))
    else
      c :: replaceAux pat rep n rest

/-- Python `s.replace(pat, rep)` for a non-empty pattern (the replace form
requires a non-empty search text, so the empty-pattern case — where
Python would interleave `rep` everywhere but this model returns `s` —
cannot reach `search_replace`). -/
def pyReplace (s pat rep : String) : String :=
  ⟨replaceAux pat.data rep.data s.data.length s.data⟩

/-- Outcome of `search_replace`. -/
inductive SRResult
  | denied                                  -- `raise PermissionDenied()`
  | formError (msgs : List Msg)             -- invalid form: message + redirect
  | done (units : List RUnit) (changes : List ChangeRow)
         (reported : Nat) (msgs : List Msg)
deriving DecidableEq, Repr

/-- `search_replace(request, project, subproject, lang)`: permission gate
(`raise PermissionDenied`), form validation, then filter the scope's units
by `target__contains=search_text`, count them, and save each matching unit
with `target.replace(search_text, replacement)` under
`change_action=Change.ACTION_REPLACE`; the count is reported back.
`save_backend` appending one change row per saved unit is the documented
behaviour of the external storage layer. -/
def search_replace (canTranslate formValid : Bool) (units : List RUnit)
    (changes : List ChangeRow) (searchText replacement : String) : SRResult :=
  if !canTranslate then
    .denied
  else if !formValid then
    .formError [.error "Failed to process form!"]
  else
    let matching := units.filter (fun u => pyContains u.target searchText)
    let updated := matching.length
    let units' := units.map (fun u =>
      if pyContains u.target searchText then
        { u with target := pyReplace u.target searchText replacement }
      else u)
    let changes' := changes ++ matching.map (fun u =>
      ({ unitPk := u.pk, action := "replace" } : ChangeRow))
    .done units' changes' updated
      [.info ("Search and replace completed, " ++ toString updated ++ " updated")]

/-! ### Theorems: claim C1 (cache expiry) -/

/-- An already-expired cache entry (ttl 5) for concrete instances. -/
def eC1 : SearchEntry :=
  { hasParams := true, query := none, name := "All strings", ids := [7],
    searchId := "a", ttl := 5, offset := 0 }

/-- The entry a fresh search at time 10 stores (ttl = 10 + 86400). -/
def eNewC1 : SearchEntry :=
  { hasParams := true, query := none, name := "All strings", ids := [3],
    searchId := "b", ttl := 86410, offset := 0 }

/-- A `search_`-prefixed key starts with `search_`. -/
theorem strStartsWith_append (pre s : String) :
    strStartsWith (pre ++ s) pre = true := by
  simp [strStartsWith]

/-- A successful new search stores the fresh entry after sweeping the
session with `cleanup_session`. -/
theorem searchNew_entry_session {session : Session} {now : Nat}
    {unitIds : List Nat} {checksum : Option (Option Nat)} {newSid name : String}
    {query : Option String} {e : SearchEntry} {s' : Session}
    (hE : searchNew session now unitIds checksum newSid name query =
      SearchOutcome.entry e s') :
    s' = cleanup_session now session ++ [("search_" ++ newSid, SessionValue.dict e)] := by
  unfold searchNew at hE
  split at hE
  · exact absurd hE (by simp)
  · split at hE
    · exact absurd hE (by simp)
    · simp only [SearchOutcome.entry.injEq] at hE
      obtain ⟨h1, h2⟩ := hE
      subst h1
      subst h2
      rfl
    · simp only [SearchOutcome.entry.injEq] at hE
      obtain ⟨h1, h2⟩ := hE
      subst h1
      subst h2
      rfl

/-- **C1** (counterexample): a session holds a search entry whose TTL (5)
has elapsed at time 10, yet resolving a search with that entry's sid
returns the expired entry unchanged instead of ending in an
invalid-search redirect — the sid-lookup branch of `search` never calls
`cleanup_session` and never consults the clock. -/
theorem C1_counterexample :
    eC1.ttl < 10 ∧
    searchResolveSid [("search_a", SessionValue.dict eC1)] "a" =
      SearchOutcome.entry eC1 [("search_a", SessionValue.dict eC1)] ∧
    searchResolveSid [("search_a", SessionValue.dict eC1)] "a" ≠
      SearchOutcome.redirectInvalid := by
  refine ⟨by decide, by decide, by decide⟩

/-- **C1** (amended): a lookup by a client-supplied sid performs no purge
and returns the cached entry even when its TTL has elapsed; expired
entries are purged only when a search is resolved without a sid (a new
search), after which a lookup by the expired entry's sid ends in an
invalid-search redirect. -/
theorem C1_amended :
    (∀ (session : Session) (sid : String) (e : SearchEntry),
        sessionGet session ("search_" ++ sid) = some (SessionValue.dict e) →
        searchResolveSid session sid = SearchOutcome.entry e session) ∧
    (∀ (session : Session) (now : Nat) (unitIds : List Nat)
        (checksum : Option (Option Nat)) (newSid name : String)
        (query : Option String) (e : SearchEntry) (s' : Session)
        (sid : String) (v : SessionValue),
        sessionGet session ("search_" ++ sid) = some v →
        staleValue now v = true →
        (∀ kv ∈ session, kv.1 = "search_" ++ sid → staleValue now kv.2 = true) →
        "search_" ++ sid ≠ "search_" ++ newSid →
        searchNew session now unitIds checksum newSid name query =
          SearchOutcome.entry e s' →
        searchResolveSid s' sid = SearchOutcome.redirectInvalid) := by
  constructor
  · intro session sid e h
    unfold searchResolveSid
    rw [h]
  · intro session now unitIds checksum newSid name query e s' sid v
      _hget _hstale hall hne hE
    have hpre := strStartsWith_append "search_" sid
    have hs' := searchNew_entry_session hE
    subst hs'
    have h1 : (cleanup_session now session).find?
        (fun kv => kv.1 == "search_" ++ sid) = none := by
      rw [List.find?_eq_none]
      intro x hx hbeq
      rw [cleanup_session, List.mem_filter] at hx
      obtain ⟨hxs, hpred⟩ := hx
      have hxk : x.1 = "search_" ++ sid := eq_of_beq hbeq
      have hstx := hall x hxs hxk
      rw [hxk] at hpred
      simp [hpre, hstx] at hpred
    have h2 : ([("search_" ++ newSid, SessionValue.dict e)]).find?
        (fun kv => kv.1 == "search_" ++ sid) = none := by
      rw [List.find?_eq_none]
      intro x hx hbeq
      simp only [List.mem_singleton] at hx
      subst hx
      exact hne (eq_of_beq hbeq).symm
    unfold searchResolveSid sessionGet
    rw [List.find?_append, h1, h2]
    rfl

/-- Witness for `C1_amended` at concrete inputs: the sid lookup returns
the (expired) entry, and after a fresh search at time 10 swept the
session, the expired entry's sid resolves to the invalid-search
redirect. -/
theorem C1_amended_witness :
    searchResolveSid [("search_a", SessionValue.dict eC1)] "a" =
      SearchOutcome.entry eC1 [("search_a", SessionValue.dict eC1)] ∧
    searchResolveSid [("search_b", SessionValue.dict eNewC1)] "a" =
      SearchOutcome.redirectInvalid :=
  ⟨C1_amended.1 [("search_a", SessionValue.dict eC1)] "a" eC1 (by decide),
   C1_amended.2 [("search_a", SessionValue.dict eC1)] 10 [3] none "b"
     "All strings" none eNewC1 [("search_b", SessionValue.dict eNewC1)] "a"
     (SessionValue.dict eC1) (by decide) (by decide) (by decide)
     (by decide) (by decide)⟩

/-! ### Theorems: claim C2 (capability checks on mutating transitions) -/

/-- A trivial storage backend for concrete instances (never reached on the
capability-failure paths). -/
def bTrivC2 : TransBackend :=
  { translate := fun u _ _ => (u, false),
    activeChecks := fun _ => [],
    fixTarget := fun t _ => (t, []) }

/-- A request carrying a plain translation save. -/
def reqC2 : TranslateReq :=
  { antispamValid := true, formValid := true, suggest := false,
    commitMessage := none, target := ["x"], fuzzy := false }

/-- A unit for concrete instances. -/
def unitC2 : TUnit := { idHash := 1, target := "t", fuzzy := false }

/-- **C2** (counterexample): a save-translation POST by a user who fails
`can_translate` emits the error and mutates nothing, but the response
redirects to the *next* offset (`go_next` keeps its initial `True`), not
the current one — refuting the claim that every failed capability check
stays on the current offset. -/
theorem C2_counterexample :
    handle_translate reqC2 unitC2 "msg" false true false bTrivC2 false false false =
      ⟨unitC2, "msg",
        [Msg.error "You don't have privileges to save translations!"], false,
        TResponse.redirect Redirect.next⟩ ∧
    (handle_translate reqC2 unitC2 "msg" false true false bTrivC2
        false false false).response ≠ TResponse.redirect Redirect.this := by
  refine ⟨by decide, by decide⟩

/-- **C2** (amended): a failed capability check always emits an error
message and performs no mutation; the suggestion transitions (suggest,
accept, delete, vote) stay on the current offset, and merge/revert fall
through to re-rendering the current page — but a failed `can_translate`
on a plain translation save redirects to the *next* offset, and
search-replace refuses with a hard `PermissionDenied` carrying no
message. -/
theorem C2_amended :
    (∀ (req : TranslateReq) (unit : TUnit) (cm : String) (cs ul : Bool)
        (b : TransBackend) (it sa sr : Bool),
        req.antispamValid = true → req.formValid = true → req.suggest = false →
        handle_translate req unit cm false cs ul b it sa sr =
          ⟨unit, cm,
            [Msg.error "You don't have privileges to save translations!"],
            false, TResponse.redirect Redirect.next⟩) ∧
    (∀ (req : TranslateReq) (unit : TUnit) (cm : String) (ct ul : Bool)
        (b : TransBackend) (it sa sr : Bool) (t : String) (ts : List String),
        req.antispamValid = true → req.formValid = true → req.suggest = true →
        req.target = t :: ts → t ≠ "" →
        handle_translate req unit cm ct false ul b it sa sr =
          ⟨unit, cm,
            [Msg.error "You don't have privileges to add suggestions!"],
            false, TResponse.redirect Redirect.this⟩) ∧
    (∀ (fv : Bool) (u m : TUnit) (ts : Nat) (sb : TUnit → Bool),
        handle_merge false fv u m ts sb =
          ⟨u, ts, [Msg.error "You don't have privileges to save translations!"],
            TResponse.noResponse⟩) ∧
    (∀ (fv : Bool) (u : TUnit) (c : ChangeRec),
        handle_revert false fv u c =
          ⟨u, [Msg.error "You don't have privileges to save translations!"],
            false, TResponse.noResponse⟩) ∧
    (∀ (p : SugPost) (store : List SuggestionRec) (proj lang : String)
        (cd cv : Bool) (sugid : String) (s : SuggestionRec),
        p.accept = some sugid →
        fetchSuggestion store sugid proj lang = some s →
        handle_suggestions p store proj lang false cd cv =
          ⟨SugEffect.noEffect,
            [Msg.error "You do not have privilege to accept suggestions!"],
            Redirect.this⟩) ∧
    (∀ (p : SugPost) (store : List SuggestionRec) (proj lang : String)
        (ca cv : Bool) (sugid : String) (s : SuggestionRec),
        p.accept = none → p.acceptEdit = none → p.delete = some sugid →
        fetchSuggestion store sugid proj lang = some s →
        handle_suggestions p store proj lang ca false cv =
          ⟨SugEffect.noEffect,
            [Msg.error "You do not have privilege to delete suggestions!"],
            Redirect.this⟩) ∧
    (∀ (p : SugPost) (store : List SuggestionRec) (proj lang : String)
        (ca cd : Bool) (sugid : String) (s : SuggestionRec),
        p.accept = none → p.acceptEdit = none → p.delete = none →
        p.upvote = some sugid →
        fetchSuggestion store sugid proj lang = some s →
        handle_suggestions p store proj lang ca cd false =
          ⟨SugEffect.noEffect,
            [Msg.error "You do not have privilege to vote for suggestions!"],
            Redirect.this⟩) ∧
    (∀ (fv : Bool) (units : List RUnit) (changes : List ChangeRow)
        (st rep : String),
        search_replace false fv units changes st rep = SRResult.denied) := by
  refine ⟨?_, ?_, ?_, ?_, ?_, ?_, ?_, ?_⟩
  · intro req unit cm cs ul b it sa sr h1 h2 h3
    simp [handle_translate, h1, h2, h3]
  · intro req unit cm ct ul b it sa sr t ts h1 h2 h3 h4 h5
    simp [handle_translate, perform_suggestion, h1, h2, h3, h4, h5]
  · intro fv u m ts sb
    simp [handle_merge]
  · intro fv u c
    simp [handle_revert]
  · intro p store proj lang cd cv sugid s hacc hfetch
    simp [handle_suggestions, sugParse, hacc, hfetch, check_suggest_permissions]
  · intro p store proj lang ca cv sugid s hacc hae hdel hfetch
    simp [handle_suggestions, sugParse, hacc, hae, hdel, hfetch,
      check_suggest_permissions]
  · intro p store proj lang ca cd sugid s hacc hae hdel hup hfetch
    simp [handle_suggestions, sugParse, hacc, hae, hdel, hup, hfetch,
      check_suggest_permissions]
  · intro fv units changes st rep
    simp [search_replace]

/-- Witness for `C2_amended` at concrete inputs. -/
theorem C2_amended_witness :
    handle_translate reqC2 unitC2 "m" false true false bTrivC2 false false false =
      ⟨unitC2, "m",
        [Msg.error "You don't have privileges to save translations!"],
        false, TResponse.redirect Redirect.next⟩ ∧
    handle_suggestions ⟨some "4", none, none, none, none⟩
        [⟨4, "p", "cs"⟩] "p" "cs" false true true =
      ⟨SugEffect.noEffect,
        [Msg.error "You do not have privilege to accept suggestions!"],
        Redirect.this⟩ ∧
    search_replace false true [⟨1, "abc"⟩] [] "b" "x" = SRResult.denied :=
  ⟨C2_amended.1 reqC2 unitC2 "m" true false bTrivC2 false false false
      rfl rfl rfl,
   (C2_amended.2.2.2.2.1) ⟨some "4", none, none, none, none⟩
      [⟨4, "p", "cs"⟩] "p" "cs" false true "4" ⟨4, "p", "cs"⟩ rfl (by decide),
   (C2_amended.2.2.2.2.2.2.2) true [⟨1, "abc"⟩] [] "b" "x"⟩

/-! ### Theorems: claim C3 (new check failures after a save) -/

/-- A backend on which the save trades the old failing check `a` for the
new failing check `b` (the new check set is not a superset of the old). -/
def bSwapC3 : TransBackend :=
  { translate := fun u _ f => ({ u with target := "y", fuzzy := f }, true),
    activeChecks := fun u => if u.target == "t" then ["a"] else ["b"],
    fixTarget := fun t _ => (t, []) }

/-- A backend on which the save adds the failing check `a` to an initially
empty check set (a strict superset). -/
def bGrowC3 : TransBackend :=
  { translate := fun u _ f => ({ u with target := "y", fuzzy := f }, true),
    activeChecks := fun u => if u.target == "t" then [] else ["a"],
    fixTarget := fun t _ => (t, []) }

/-- The unit being edited in the C3 instances. -/
def unitC3 : TUnit := { idHash := 1, target := "t", fuzzy := false }

/-- The save request used in the C3 instances. -/
def reqC3 : TranslateReq :=
  { antispamValid := true, formValid := true, suggest := false,
    commitMessage := none, target := ["x"], fuzzy := false }

/-- **C3** (counterexample): a save that replaces the failing check `a` by
the new failing check `b` — so the post-save set contains a check absent
before the edit — is *not* treated as a stay-signal: `set(new) >
set(old)` is a strict-superset test, it fails here, no failure is
reported, and the handler advances to the next offset. -/
theorem C3_counterexample :
    bSwapC3.activeChecks unitC3 = ["a"] ∧
    bSwapC3.activeChecks { idHash := 1, target := "y", fuzzy := false } = ["b"] ∧
    perform_translation bSwapC3 false unitC3 ["x"] false =
      ({ idHash := 1, target := "y", fuzzy := false }, true, []) ∧
    handle_translate reqC3 unitC3 "m" true true false bSwapC3 false false false =
      ⟨{ idHash := 1, target := "y", fuzzy := false }, "m", [], false,
        TResponse.redirect Redirect.next⟩ := by
  refine ⟨by decide, by decide, by decide, by decide⟩

/-- **C3** (amended): the save is always persisted (the handler keeps the
backend's saved unit in every branch); the stay-on-current-offset signal
is produced exactly when the save happened and the post-save failing
check set is a *strict superset* of the pre-save set, and in that case
the failure message is emitted. -/
theorem C3_amended :
    ∀ (b : TransBackend) (it : Bool) (unit : TUnit) (target : List String)
      (fuzzy : Bool),
      (perform_translation b it unit target fuzzy).1 =
        (b.translate unit
          (if !it then (b.fixTarget target unit).1 else target) fuzzy).1 ∧
      ((perform_translation b it unit target fuzzy).2.1 = false ↔
        ((b.translate unit
            (if !it then (b.fixTarget target unit).1 else target) fuzzy).2 = true ∧
          strictSuperset
            (b.activeChecks
              (b.translate unit
                (if !it then (b.fixTarget target unit).1 else target) fuzzy).1)
            (b.activeChecks unit) = true)) ∧
      ((perform_translation b it unit target fuzzy).2.1 = false →
        Msg.error "Some checks have failed on your translation" ∈
          (perform_translation b it unit target fuzzy).2.2) := by
  intro b it unit target fuzzy
  unfold perform_translation
  cases it
  · simp only [Bool.not_false, if_pos, if_true]
    by_cases hs : ((b.translate unit (b.fixTarget target unit).1 fuzzy).2 &&
        strictSuperset
          (b.activeChecks (b.translate unit (b.fixTarget target unit).1 fuzzy).1)
          (b.activeChecks unit)) = true
    · rw [if_pos hs]
      refine ⟨rfl, ?_, ?_⟩
      · exact ⟨fun _ => (Bool.and_eq_true _ _).mp hs, fun _ => rfl⟩
      · intro _
        simp
    · rw [if_neg hs]
      refine ⟨rfl, ?_, ?_⟩
      · constructor
        · intro h
          exact absurd h (by simp)
        · intro hb
          exact absurd (by rw [hb.1, hb.2]; rfl) hs
      · intro h
        exact absurd h (by simp)
  · simp only [Bool.not_true, Bool.false_eq_true, if_false]
    by_cases hs : ((b.translate unit target fuzzy).2 &&
        strictSuperset
          (b.activeChecks (b.translate unit target fuzzy).1)
          (b.activeChecks unit)) = true
    · rw [if_pos hs]
      refine ⟨rfl, ?_, ?_⟩
      · exact ⟨fun _ => (Bool.and_eq_true _ _).mp hs, fun _ => rfl⟩
      · intro _
        simp
    · rw [if_neg hs]
      refine ⟨rfl, ?_, ?_⟩
      · constructor
        · intro h
          exact absurd h (by simp)
        · intro hb
          exact absurd (by rw [hb.1, hb.2]; rfl) hs
      · intro h
        exact absurd h (by simp)

/-- Witness for `C3_amended`: on `bGrowC3` the check set grows strictly,
so the stay-signal fires and the failure message is emitted. -/
theorem C3_amended_witness :
    (perform_translation bGrowC3 false unitC3 ["x"] false).2.1 = false ∧
    Msg.error "Some checks have failed on your translation" ∈
      (perform_translation bGrowC3 false unitC3 ["x"] false).2.2 := by
  have h := C3_amended bGrowC3 false unitC3 ["x"] false
  have hstay := (h.2.1).mpr ⟨by decide, by decide⟩
  exact ⟨hstay, h.2.2 hstay⟩

/-! ### Theorems: claim C4 (offset semantics over the cached id list) -/

/-- **C4**: with a cached entry holding `ids` of length `N`, an offset `k`
with `0 <= k < N` resolves exactly the record `ids[k]` and leaves the
session untouched; an out-of-range offset (`k < 0` or `k >= N`) emits the
informational reached-end message, deletes the cache entry from the
session, and redirects. -/
theorem C4_offset_semantics :
    ∀ (session : Session) (e : SearchEntry) (k : Int) (hasUnit : Nat → Bool),
      ((0 ≤ k ∧ k < (e.ids.length : Int)) →
        hasUnit (e.ids.getD k.toNat 0) = true →
        ∃ (h : k.toNat < e.ids.length),
          resolveOffsetUnit session e k hasUnit =
            OffsetOutcome.unitAt (e.ids.get ⟨k.toNat, h⟩) session) ∧
      ((k < 0 ∨ (e.ids.length : Int) ≤ k) →
        resolveOffsetUnit session e k hasUnit =
          OffsetOutcome.reachedEnd
            [Msg.info "You have reached end of translating."]
            (sessionDel session ("search_" ++ e.searchId))) := by
  intro session e k hasUnit
  constructor
  · intro hin hU
    have hlt : k.toNat < e.ids.length := by omega
    refine ⟨hlt, ?_⟩
    unfold resolveOffsetUnit
    rw [if_pos hin, if_pos hU]
    have hgd : e.ids.getD k.toNat 0 = e.ids.get ⟨k.toNat, hlt⟩ := by
      rw [List.getD_eq_getElem?_getD, List.getElem?_eq_getElem hlt]
      rfl
    rw [hgd]
  · intro hout
    unfold resolveOffsetUnit
    rw [if_neg (by omega)]

/-- A two-element search entry for the C4 witness. -/
def eC4 : SearchEntry :=
  { hasParams := true, query := none, name := "All strings", ids := [5, 6],
    searchId := "s", ttl := 100, offset := 0 }

/-- Witness for `C4_offset_semantics`: offset 1 of `ids = [5, 6]` resolves
record 6; offset 2 deletes the entry and redirects. -/
theorem C4_offset_semantics_witness :
    resolveOffsetUnit [] eC4 1 (fun _ => true) =
      OffsetOutcome.unitAt 6 [] ∧
    resolveOffsetUnit [("search_s", SessionValue.dict eC4)] eC4 2 (fun _ => true) =
      OffsetOutcome.reachedEnd
        [Msg.info "You have reached end of translating."] [] := by
  constructor
  · obtain ⟨h, heq⟩ :=
      (C4_offset_semantics [] eC4 1 (fun _ => true)).1 (by decide) (by decide)
    rw [heq]
    rfl
  · have h :=
      (C4_offset_semantics [("search_s", SessionValue.dict eC4)] eC4 2
        (fun _ => true)).2 (by decide)
    rw [h]
    decide

/-! ### Theorems: claim C5 (CSV export cap, locale, capability) -/

/-- **C5**: the CSV changes export refuses with `PermissionDenied` (no CSV
body) when the viewer lacks the download capability, and otherwise
activates the fixed `en` locale and emits at most 2000 data rows whatever
the underlying change count. -/
theorem C5_csv_export :
    ∀ (canDownload : Bool) (changes : List CsvRow),
      (canDownload = false →
        changes_csv_get canDownload changes = Except.error "PermissionDenied") ∧
      (canDownload = true →
        changes_csv_get canDownload changes =
          Except.ok { locale := "en",
                      header := ["timestamp", "action", "user", "url"],
                      rows := changes.take 2000 } ∧
        (changes.take 2000).length ≤ 2000) := by
  intro canDownload changes
  constructor
  · intro h
    subst h
    rfl
  · intro h
    subst h
    exact ⟨rfl, List.length_take_le 2000 changes⟩

/-- A CSV row for the C5 witness. -/
def rowC5 : CsvRow :=
  { timestamp := "2017-01-01T00:00:00", action := "New translation",
    user := "u", url := "/x" }

/-- Witness for `C5_csv_export`: refusal without the capability, and the
2000-row cap on a 2001-row change set. -/
theorem C5_csv_export_witness :
    changes_csv_get false [rowC5] = Except.error "PermissionDenied" ∧
    ((List.replicate 2001 rowC5).take 2000).length ≤ 2000 :=
  ⟨(C5_csv_export false [rowC5]).1 rfl,
   ((C5_csv_export true (List.replicate 2001 rowC5)).2 rfl).2⟩

/-! ### Theorems: claim C6 (merge gated by identity hash) -/

/-- **C6**: merging with mismatched identity hashes reports an error and
leaves the unit unchanged with no redirect; with matching hashes the
target and fuzzy flag are copied from the merged unit and the handler
redirects to the next unit, and the acting user's translated count grows
by exactly one exactly when the backend reports a saved change. -/
theorem C6_merge :
    ∀ (u m : TUnit) (ts : Nat) (sb : TUnit → Bool),
      (u.idHash ≠ m.idHash →
        handle_merge true true u m ts sb =
          ⟨u, ts, [Msg.error "Can not merge different messages!"],
            TResponse.noResponse⟩) ∧
      (u.idHash = m.idHash →
        (handle_merge true true u m ts sb).unit.target = m.target ∧
        (handle_merge true true u m ts sb).unit.fuzzy = m.fuzzy ∧
        (handle_merge true true u m ts sb).response =
          TResponse.redirect Redirect.next ∧
        (sb { u with target := m.target, fuzzy := m.fuzzy } = true →
          (handle_merge true true u m ts sb).translatedStat = ts + 1) ∧
        (sb { u with target := m.target, fuzzy := m.fuzzy } = false →
          (handle_merge true true u m ts sb).translatedStat = ts)) := by
  intro u m ts sb
  constructor
  · intro hne
    simp [handle_merge, hne]
  · intro heq
    refine ⟨?_, ?_, ?_, ?_, ?_⟩
    · simp [handle_merge, heq]
    · simp [handle_merge, heq]
    · simp [handle_merge, heq]
    · intro hsb
      rw [heq] at hsb
      simp [handle_merge, heq, hsb]
    · intro hsb
      rw [heq] at hsb
      simp [handle_merge, heq, hsb]

/-- Units for the C6 witness: same identity hash 1, different content. -/
def uC6 : TUnit := { idHash := 1, target := "old", fuzzy := true }

/-- The merged (source) unit in the C6 witness. -/
def mC6 : TUnit := { idHash := 1, target := "new", fuzzy := false }

/-- A unit with a different identity hash for the C6 witness. -/
def mBadC6 : TUnit := { idHash := 2, target := "new", fuzzy := false }

/-- Witness for `C6_merge`: hash mismatch aborts unchanged; a matching
merge copies target+fuzzy and bumps the translated count on save. -/
theorem C6_merge_witness :
    handle_merge true true uC6 mBadC6 3 (fun _ => true) =
      ⟨uC6, 3, [Msg.error "Can not merge different messages!"],
        TResponse.noResponse⟩ ∧
    (handle_merge true true uC6 mC6 3 (fun _ => true)).unit.target = "new" ∧
    (handle_merge true true uC6 mC6 3 (fun _ => true)).translatedStat = 4 :=
  ⟨(C6_merge uC6 mBadC6 3 (fun _ => true)).1 (by decide),
   ((C6_merge uC6 mC6 3 (fun _ => true)).2 rfl).1,
   ((C6_merge uC6 mC6 3 (fun _ => true)).2 rfl).2.2.2.1 rfl⟩

/-! ### Theorems: claim C7 (revert gated by hash and non-empty target) -/

/-- **C7**: reverting restores the unit's target from the change only when
the identity hashes match and the historical target is non-empty; a hash
mismatch or an empty historical target reports an error and leaves the
unit unchanged with no save. -/
theorem C7_revert :
    ∀ (u : TUnit) (c : ChangeRec),
      (u.idHash ≠ c.unitIdHash →
        handle_revert true true u c =
          ⟨u, [Msg.error "Can not revert to different unit!"], false,
            TResponse.noResponse⟩) ∧
      (u.idHash = c.unitIdHash → c.target = "" →
        handle_revert true true u c =
          ⟨u, [Msg.error "Can not revert to empty translation!"], false,
            TResponse.noResponse⟩) ∧
      (u.idHash = c.unitIdHash → c.target ≠ "" →
        handle_revert true true u c =
          ⟨{ u with target := c.target }, [], true,
            TResponse.redirect Redirect.next⟩) := by
  intro u c
  refine ⟨?_, ?_, ?_⟩
  · intro hne
    simp [handle_revert, hne]
  · intro heq hempty
    simp [handle_revert, heq, hempty]
  · intro heq hne
    simp [handle_revert, heq, hne]

/-- Witness for `C7_revert` at concrete inputs. -/
theorem C7_revert_witness :
    handle_revert true true uC6 ⟨2, "hist"⟩ =
      ⟨uC6, [Msg.error "Can not revert to different unit!"], false,
        TResponse.noResponse⟩ ∧
    handle_revert true true uC6 ⟨1, ""⟩ =
      ⟨uC6, [Msg.error "Can not revert to empty translation!"], false,
        TResponse.noResponse⟩ ∧
    handle_revert true true uC6 ⟨1, "hist"⟩ =
      ⟨{ idHash := 1, target := "hist", fuzzy := true }, [], true,
        TResponse.redirect Redirect.next⟩ :=
  ⟨(C7_revert uC6 ⟨2, "hist"⟩).1 (by decide),
   (C7_revert uC6 ⟨1, ""⟩).2.1 rfl rfl,
   (C7_revert uC6 ⟨1, "hist"⟩).2.2 rfl (by decide)⟩

/-! ### Theorems: claim C8 (search-replace over N matching units) -/

/-- **C8**: with the capability and a valid form, search-replace reports
exactly the number N of units whose target contains the search text,
appends exactly N new change rows, all with action `replace` and listing
exactly the matching units' pks in order, and rewrites exactly the
matching units' targets by literal substring replacement while leaving
the others untouched. -/
theorem C8_search_replace :
    ∀ (units : List RUnit) (changes : List ChangeRow) (st rep : String),
      ∃ (units' : List RUnit) (changes' : List ChangeRow) (msgs : List Msg),
        search_replace true true units changes st rep =
          SRResult.done units' changes'
            ((units.filter (fun u => pyContains u.target st)).length) msgs ∧
        changes'.length = changes.length +
          (units.filter (fun u => pyContains u.target st)).length ∧
        changes'.take changes.length = changes ∧
        (∀ c ∈ changes'.drop changes.length, c.action = "replace") ∧
        (changes'.drop changes.length).map (fun c => c.unitPk) =
          (units.filter (fun u => pyContains u.target st)).map (fun u => u.pk) ∧
        units'.length = units.length ∧
        (∀ (i : Nat) (h : i < units.length) (h' : i < units'.length),
          (pyContains (units.get ⟨i, h⟩).target st = true →
            (units'.get ⟨i, h'⟩).pk = (units.get ⟨i, h⟩).pk ∧
            (units'.get ⟨i, h'⟩).target =
              pyReplace (units.get ⟨i, h⟩).target st rep) ∧
          (pyContains (units.get ⟨i, h⟩).target st = false →
            units'.get ⟨i, h'⟩ = units.get ⟨i, h⟩)) := by
  intro units changes st rep
  refine ⟨units.map (fun u =>
      if pyContains u.target st then
        { u with target := pyReplace u.target st rep } else u),
    changes ++ (units.filter (fun u => pyContains u.target st)).map (fun u =>
      ({ unitPk := u.pk, action := "replace" } : ChangeRow)),
    [Msg.info ("Search and replace completed, " ++
      toString (units.filter (fun u => pyContains u.target st)).length ++
      " updated")], rfl, ?_, ?_, ?_, ?_, ?_, ?_⟩
  · simp
  · exact List.take_left changes _
  · intro c hc
    rw [List.drop_left] at hc
    obtain ⟨u, _, hcu⟩ := List.mem_map.mp hc
    rw [← hcu]
  · rw [List.drop_left, List.map_map]
    rfl
  · simp
  · intro i h h'
    constructor
    · intro hp
      have hm : (units.map (fun u =>
          if pyContains u.target st then
            { u with target := pyReplace u.target st rep } else u)).get ⟨i, h'⟩ =
          (fun u => if pyContains u.target st then
            ({ u with target := pyReplace u.target st rep } : RUnit) else u)
            (units.get ⟨i, h⟩) := List.get_map _
      rw [hm]
      simp only [List.get_eq_getElem] at hp
      simp [hp]
    · intro hp
      have hm : (units.map (fun u =>
          if pyContains u.target st then
            { u with target := pyReplace u.target st rep } else u)).get ⟨i, h'⟩ =
          (fun u => if pyContains u.target st then
            ({ u with target := pyReplace u.target st rep } : RUnit) else u)
            (units.get ⟨i, h⟩) := List.get_map _
      rw [hm]
      simp only [List.get_eq_getElem] at hp
      simp [hp]

/-- Witness for `C8_search_replace`: two of three units match `"ab"`; both
are rewritten, two `replace` changes appear, and the count 2 is
reported. -/
theorem C8_search_replace_witness :
    search_replace true true
        [⟨1, "xaby"⟩, ⟨2, "zz"⟩, ⟨3, "abab"⟩] [⟨9, "old"⟩] "ab" "Q" =
      SRResult.done [⟨1, "xQy"⟩, ⟨2, "zz"⟩, ⟨3, "QQ"⟩]
        [⟨9, "old"⟩, ⟨1, "replace"⟩, ⟨3, "replace"⟩] 2
        [Msg.info "Search and replace completed, 2 updated"] ∧
    (2 : Nat) = ([⟨1, "xaby"⟩, ⟨2, "zz"⟩, (⟨3, "abab"⟩ : RUnit)].filter
      (fun u => pyContains u.target "ab")).length := by
  obtain ⟨units', changes', msgs, hdone, _⟩ :=
    C8_search_replace [⟨1, "xaby"⟩, ⟨2, "zz"⟩, ⟨3, "abab"⟩] [⟨9, "old"⟩] "ab" "Q"
  refine ⟨?_, by decide⟩
  have : search_replace true true
      [⟨1, "xaby"⟩, ⟨2, "zz"⟩, ⟨3, "abab"⟩] [⟨9, "old"⟩] "ab" "Q" =
      SRResult.done [⟨1, "xQy"⟩, ⟨2, "zz"⟩, ⟨3, "QQ"⟩]
        [⟨9, "old"⟩, ⟨1, "replace"⟩, ⟨3, "replace"⟩] 2
        [Msg.info "Search and replace completed, 2 updated"] := by decide
  exact this

/-! ### Theorems: claim C9 (malformed offset parameters default silently) -/

/-- **C9**: an `offset` GET parameter that does not parse as an integer
silently yields 0 in both the translate view and zen mode, with no
message; an absent parameter yields the cached entry's stored offset in
the translate view and 0 in zen mode; a parseable parameter is used
as-is.  The computation is total: a malformed offset never fails the
request. -/
theorem C9_offset_default :
    ∀ (s : String) (stored : Int),
      (pyInt s = none →
        translateOffset (some s) stored = (0, []) ∧
        zenOffset (some s) = (0, [])) ∧
      (translateOffset none stored = (stored, []) ∧
        zenOffset none = (0, [])) ∧
      (∀ n : Int, pyInt s = some n →
        translateOffset (some s) stored = (n, []) ∧
        zenOffset (some s) = (n, [])) := by
  intro s stored
  refine ⟨?_, ⟨rfl, rfl⟩, ?_⟩
  · intro h
    constructor
    · simp [translateOffset, h]
    · simp [zenOffset, h]
  · intro n h
    constructor
    · simp [translateOffset, h]
    · simp [zenOffset, h]

/-- Witness for `C9_offset_default`: the malformed offset `"x7"` defaults
to 0 in both views, and the absent parameter keeps the stored offset 5. -/
theorem C9_offset_default_witness :
    translateOffset (some "x7") 5 = (0, []) ∧
    zenOffset (some "x7") = (0, []) ∧
    translateOffset none 5 = (5, []) ∧
    zenOffset none = (0, []) :=
  ⟨((C9_offset_default "x7" 5).1 (by decide)).1,
   ((C9_offset_default "x7" 5).1 (by decide)).2,
   (C9_offset_default "x7" 5).2.1.1,
   (C9_offset_default "x7" 5).2.1.2⟩

/-! ### Theorems: claim C10 (suggestion modes and navigation) -/

/-- **C10**: with the needed capabilities and a resolvable suggestion id,
`accept_edit` performs the same accept operation as `accept` but
redirects back to the current offset; only plain `accept` advances to the
next offset; `delete`, `upvote` and `downvote` all redirect to the
current offset. -/
theorem C10_suggestion_modes :
    ∀ (p : SugPost) (store : List SuggestionRec) (proj lang : String)
      (sugid : String) (s : SuggestionRec),
      fetchSuggestion store sugid proj lang = some s →
      ((p.accept = some sugid →
        handle_suggestions p store proj lang true true true =
          ⟨SugEffect.accepted, [], Redirect.next⟩) ∧
      (p.accept = none → p.acceptEdit = some sugid →
        handle_suggestions p store proj lang true true true =
          ⟨SugEffect.accepted, [], Redirect.this⟩) ∧
      (p.accept = none → p.acceptEdit = none → p.delete = some sugid →
        handle_suggestions p store proj lang true true true =
          ⟨SugEffect.deleted, [], Redirect.this⟩) ∧
      (p.accept = none → p.acceptEdit = none → p.delete = none →
        p.upvote = some sugid →
        handle_suggestions p store proj lang true true true =
          ⟨SugEffect.voted true, [], Redirect.this⟩) ∧
      (p.accept = none → p.acceptEdit = none → p.delete = none →
        p.upvote = none → p.downvote = some sugid →
        handle_suggestions p store proj lang true true true =
          ⟨SugEffect.voted false, [], Redirect.this⟩)) := by
  intro p store proj lang sugid s hfetch
  refine ⟨?_, ?_, ?_, ?_, ?_⟩
  · intro h1
    simp [handle_suggestions, sugParse, h1, hfetch, check_suggest_permissions]
  · intro h1 h2
    simp [handle_suggestions, sugParse, h1, h2, hfetch,
      check_suggest_permissions]
  · intro h1 h2 h3
    simp [handle_suggestions, sugParse, h1, h2, h3, hfetch,
      check_suggest_permissions]
  · intro h1 h2 h3 h4
    simp [handle_suggestions, sugParse, h1, h2, h3, h4, hfetch,
      check_suggest_permissions]
  · intro h1 h2 h3 h4 h5
    simp [handle_suggestions, sugParse, h1, h2, h3, h4, h5, hfetch,
      check_suggest_permissions]

/-- Witness for `C10_suggestion_modes` over a one-suggestion store. -/
theorem C10_suggestion_modes_witness :
    handle_suggestions ⟨some "4", none, none, none, none⟩
        [⟨4, "p", "cs"⟩] "p" "cs" true true true =
      ⟨SugEffect.accepted, [], Redirect.next⟩ ∧
    handle_suggestions ⟨none, some "4", none, none, none⟩
        [⟨4, "p", "cs"⟩] "p" "cs" true true true =
      ⟨SugEffect.accepted, [], Redirect.this⟩ ∧
    handle_suggestions ⟨none, none, some "4", none, none⟩
        [⟨4, "p", "cs"⟩] "p" "cs" true true true =
      ⟨SugEffect.deleted, [], Redirect.this⟩ ∧
    handle_suggestions ⟨none, none, none, some "4", none⟩
        [⟨4, "p", "cs"⟩] "p" "cs" true true true =
      ⟨SugEffect.voted true, [], Redirect.this⟩ ∧
    handle_suggestions ⟨none, none, none, none, some "4"⟩
        [⟨4, "p", "cs"⟩] "p" "cs" true true true =
      ⟨SugEffect.voted false, [], Redirect.this⟩ :=
  ⟨(C10_suggestion_modes ⟨some "4", none, none, none, none⟩
      [⟨4, "p", "cs"⟩] "p" "cs" "4" ⟨4, "p", "cs"⟩ (by decide)).1 rfl,
   (C10_suggestion_modes ⟨none, some "4", none, none, none⟩
      [⟨4, "p", "cs"⟩] "p" "cs" "4" ⟨4, "p", "cs"⟩ (by decide)).2.1 rfl rfl,
   (C10_suggestion_modes ⟨none, none, some "4", none, none⟩
      [⟨4, "p", "cs"⟩] "p" "cs" "4" ⟨4, "p", "cs"⟩ (by decide)).2.2.1 rfl rfl rfl,
   (C10_suggestion_modes ⟨none, none, none, some "4", none⟩
      [⟨4, "p", "cs"⟩] "p" "cs" "4" ⟨4, "p", "cs"⟩
      (by decide)).2.2.2.1 rfl rfl rfl rfl,
   (C10_suggestion_modes ⟨none, none, none, none, some "4"⟩
      [⟨4, "p", "cs"⟩] "p" "cs" "4" ⟨4, "p", "cs"⟩
      (by decide)).2.2.2.2 rfl rfl rfl rfl rfl⟩

end Weblate
